import Mathlib

/-!
# Model of the hasura-storage client library

Shallow embedding of the two source files:

* `src/hasura-storage-api.ts` — `HasuraStorageApi`, the transport adapter.
  Each remote operation is modelled as a function from the transport outcome
  (`Except Fault body`: either the response body of a successful HTTP call,
  or a thrown transport fault) to the value the operation produces
  (`Except Fault response`: `.ok` models a normal return, `.error` models an
  exception escaping the operation).

* `src/hasura-storage-client.ts` — `HasuraStorageClient`, the encoding and
  request facade.  Each facade operation takes its parameters together with
  the outcome of the adapter call it would make, and returns the list of
  adapter calls it performs (so that "zero network calls" is a provable
  statement) paired with its own outcome.

The helper module `src/utils` (utf8Bytes, base64Bytes, percentEncodedBytes)
is imported by the source but its code is not part of the repository
snapshot; those three functions are modelled from the spec, and each such
definition is marked `Modelled from the spec:` in its doc comment.
-/

/-- A fault: an error value carrying a human-readable message.  Models both
a thrown/returned JS `Error` and the raw-string throw in the data-URL path. -/
structure Fault where
  message : String
deriving DecidableEq, Repr

/-- File metadata returned by the storage service; its contents are opaque
to the client, which only tests it for presence. -/
structure FileMetadata where
  raw : String
deriving DecidableEq, Repr

/-- A presigned URL object returned by the service; opaque to the client. -/
structure PresignedUrl where
  url : String
deriving DecidableEq, Repr

/-- A `File` object: models `new File([fileData], name, { type })`. -/
structure FileObj where
  name : String
  bytes : List Nat
  type : Option String
deriving DecidableEq, Repr

/-- A `FormData` object: a list of named entries, each holding a file. -/
abbrev FormDataM := List (String × FileObj)

/-- Parameters of `HasuraStorageApi.upload` (`ApiUploadParams`). -/
structure ApiUploadParams where
  file : FormDataM
  bucketId : Option String
  id : Option String
  name : Option String
deriving DecidableEq, Repr

/-- `ApiUploadResponse`: `{ fileMetadata, error }`. -/
structure ApiUploadResponse where
  fileMetadata : Option FileMetadata
  error : Option Fault
deriving DecidableEq, Repr

/-- `ApiGetPresignedUrlResponse`: `{ presignedUrl, error }`. -/
structure ApiGetPresignedUrlResponse where
  presignedUrl : Option PresignedUrl
  error : Option Fault
deriving DecidableEq, Repr

/-- `ApiDeleteResponse`: `{ error }`. -/
structure ApiDeleteResponse where
  error : Option Fault
deriving DecidableEq, Repr

/-- `StorageMetadataResponse`: the body of `GET /m{path}`, destructured by
the client as `{ metadata, error }`; an empty body leaves both fields unset. -/
structure StorageMetadataResponse where
  metadata : Option String
  error : Option Fault
deriving DecidableEq, Repr

/-- The facade's upload response has the same `{ fileMetadata, error }` shape. -/
abbrev StorageUploadResponse := ApiUploadResponse

/-- The facade's presigned-url response has the same shape as the adapter's. -/
abbrev StorageGetPresignedUrlResponse := ApiGetPresignedUrlResponse

/-- The facade's delete response: `{ error }`. -/
abbrev StorageDeleteResponse := ApiDeleteResponse

/-! ## Missing `src/utils` helpers, modelled from the spec -/

/-- One character's UTF-8 byte sequence. -/
def charUtf8 (c : Char) : List Nat :=
  let n := c.toNat
  if n < 0x80 then [n]
  else if n < 0x800 then [0xC0 + n / 64, 0x80 + n % 64]
  else if n < 0x10000 then
    [0xE0 + n / 4096, 0x80 + (n / 64) % 64, 0x80 + n % 64]
  else
    [0xF0 + n / 262144, 0x80 + (n / 4096) % 64, 0x80 + (n / 64) % 64,
      0x80 + n % 64]

/-- Modelled from the spec: `utf8Bytes` from the missing `src/utils` module —
"payload = UTF-8 byte encoding of the string". -/
def utf8Bytes (s : String) : List Nat :=
  s.toList.flatMap charUtf8

/-- Value of a hexadecimal digit character. -/
def hexVal (c : Char) : Option Nat :=
  if '0' ≤ c ∧ c ≤ '9' then some (c.toNat - 48)
  else if 'a' ≤ c ∧ c ≤ 'f' then some (c.toNat - 97 + 10)
  else if 'A' ≤ c ∧ c ≤ 'F' then some (c.toNat - 65 + 10)
  else none

/-- Modelled from the spec: `percentEncodedBytes` from the missing
`src/utils` module — "percent-decode (URL-decode) the payload bytes".
`%XX` becomes the byte `XX`; any other character contributes its UTF-8
bytes. -/
def percentDecodeBytes : List Char → List Nat
  | [] => []
  | '%' :: h1 :: h2 :: rest =>
    match hexVal h1, hexVal h2 with
    | some a, some b => (16 * a + b) :: percentDecodeBytes rest
    | _, _ => charUtf8 '%' ++ percentDecodeBytes (h1 :: h2 :: rest)
  | c :: rest => charUtf8 c ++ percentDecodeBytes rest

/-- Value of a base64 alphabet character. -/
def base64CharVal (c : Char) : Option Nat :=
  if 'A' ≤ c ∧ c ≤ 'Z' then some (c.toNat - 65)
  else if 'a' ≤ c ∧ c ≤ 'z' then some (c.toNat - 97 + 26)
  else if '0' ≤ c ∧ c ≤ '9' then some (c.toNat - 48 + 52)
  else if c = '+' then some 62
  else if c = '/' then some 63
  else none

/-- Decode one base64 quantum of four characters (with `=` padding). -/
def b64Group (c1 c2 c3 c4 : Char) : List Nat :=
  match base64CharVal c1, base64CharVal c2 with
  | some v1, some v2 =>
    let b1 := v1 * 4 + v2 / 16
    if c3 = '=' then [b1]
    else
      match base64CharVal c3 with
      | some v3 =>
        let b2 := (v2 % 16) * 16 + v3 / 4
        if c4 = '=' then [b1, b2]
        else
          match base64CharVal c4 with
          | some v4 => [b1, b2, (v3 % 4) * 64 + v4]
          | none => []
      | none => []
  | _, _ => []

/-- Modelled from the spec: `base64Bytes` from the missing `src/utils`
module — "base64-decode the payload bytes". -/
def base64Bytes : List Char → List Nat
  | c1 :: c2 :: c3 :: c4 :: rest => b64Group c1 c2 c3 c4 ++ base64Bytes rest
  | _ => []

/-! ## String helpers shared by both layers -/

/-- `path.startsWith("/")`. -/
def startsWithSlash (s : String) : Bool :=
  "/".toList.isPrefixOf s.toList

/-- The character test used by the data-URL pattern: not a comma. -/
def notComma (c : Char) : Bool :=
  c ≠ ','

/-- `data.match(/^data:([^,]+)?,/)`: `none` when the pattern does not match;
`some middle` on a match, where `middle` is capture group 1 (`none` when the
optional group matched nothing, as in `matches[1] || null`). -/
def dataUrlMatch (s : String) : Option (Option String) :=
  let cs := s.toList
  if "data:".toList.isPrefixOf cs then
    let rest := cs.drop 5
    if rest.contains ',' then
      let hdr := rest.takeWhile notComma
      some (if hdr.isEmpty then none else some (String.mk hdr))
    else none
  else none

/-- `s.substring(s.indexOf(",") + 1)`: everything after the first comma
(the whole string when there is none, since `indexOf` returns `-1`). -/
def afterFirstComma (s : String) : String :=
  if s.toList.contains ',' then
    String.mk ((s.toList.dropWhile notComma).drop 1)
  else s

/-- `middle.endsWith(";base64")`. -/
def endsWithBase64 (m : String) : Bool :=
  ";base64".toList.isSuffixOf m.toList

/-- `middle.substring(0, middle.length - ";base64".length)`. -/
def stripBase64Suffix (m : String) : String :=
  String.mk (m.toList.take (m.toList.length - 7))

/-! ## Transport adapter: `HasuraStorageApi` -/

/-- The adapter's mutable state: the current bearer token.
`none` models `undefined`. -/
structure ApiState where
  accessToken : Option String
deriving DecidableEq, Repr

/-- `setAccessToken(accessToken)`: plain overwrite. -/
def HasuraStorageApi.setAccessToken (s : ApiState) (accessToken : Option String) :
    ApiState :=
  { s with accessToken := accessToken }

/-- `generateAuthHeaders()`: `null` when `!this.accessToken` (that is, when
the token is `undefined` or the empty string), otherwise the single
`Authorization: Bearer <token>` header. -/
def HasuraStorageApi.generateAuthHeaders (s : ApiState) :
    Option (String × String) :=
  match s.accessToken with
  | none => none
  | some t => if t = "" then none else some ("Authorization", "Bearer " ++ t)

/-- Spreading `generateAuthHeaders()` into a header object: `...null`
contributes nothing. -/
def authHeaderList (s : ApiState) : List (String × String) :=
  match HasuraStorageApi.generateAuthHeaders s with
  | none => []
  | some h => [h]

/-- One conditional header assignment `if (field) headers[nm] = field`:
the JS truthiness test skips both an absent and an empty-string field. -/
def optHeader (nm : String) : Option String → List (String × String)
  | some x => if x = "" then [] else [(nm, x)]
  | none => []

/-- `generateUploadHeaders(params)`: attaches `x-nhost-bucket-id`,
`x-nhost-file-id`, `x-nhost-file-name` under the truthiness tests
`if (bucketId)`, `if (id)`, `if (name)` — absent *or empty-string* fields
contribute no header. -/
def HasuraStorageApi.generateUploadHeaders (p : ApiUploadParams) :
    List (String × String) :=
  optHeader "x-nhost-bucket-id" p.bucketId ++
  optHeader "x-nhost-file-id" p.id ++
  optHeader "x-nhost-file-name" p.name

/-- Headers of the `POST /files` request issued by `upload`. -/
def HasuraStorageApi.uploadRequestHeaders (p : ApiUploadParams) (s : ApiState) :
    List (String × String) :=
  HasuraStorageApi.generateUploadHeaders p ++ authHeaderList s

/-- Headers of the `GET /files/{fileId}/presignedurl` request. -/
def HasuraStorageApi.getPresignedUrlRequestHeaders (s : ApiState) :
    List (String × String) :=
  authHeaderList s

/-- Headers of the `DELETE /files/{fileId}` request. -/
def HasuraStorageApi.deleteRequestHeaders (s : ApiState) :
    List (String × String) :=
  authHeaderList s

/-- Headers of the `POST /o{path}` request issued by `uploadFile`. -/
def HasuraStorageApi.uploadFileRequestHeaders (s : ApiState) :
    List (String × String) :=
  [("Content-Type", "multipart/form-data")] ++ authHeaderList s

/-- Headers of the `DELETE /o{path}` request issued by `deleteFile`. -/
def HasuraStorageApi.deleteFileRequestHeaders (s : ApiState) :
    List (String × String) :=
  authHeaderList s

/-- Headers of the `GET /m{path}` request issued by `getMetadata`. -/
def HasuraStorageApi.getMetadataRequestHeaders (s : ApiState) :
    List (String × String) :=
  authHeaderList s

/-- `upload`: try/catch around the POST — a transport fault is caught and
returned as `{ fileMetadata: null, error }`; a success returns
`{ fileMetadata: res.data, error: null }` (the body may be empty). -/
def HasuraStorageApi.upload (transport : Except Fault (Option FileMetadata)) :
    Except Fault ApiUploadResponse :=
  match transport with
  | .ok d => .ok { fileMetadata := d, error := none }
  | .error e => .ok { fileMetadata := none, error := some e }

/-- `getPresignedUrl`: try/catch around the GET. -/
def HasuraStorageApi.getPresignedUrl
    (transport : Except Fault (Option PresignedUrl)) :
    Except Fault ApiGetPresignedUrlResponse :=
  match transport with
  | .ok d => .ok { presignedUrl := d, error := none }
  | .error e => .ok { presignedUrl := none, error := some e }

/-- `delete`: try/catch around the DELETE. -/
def HasuraStorageApi.delete (transport : Except Fault Unit) :
    Except Fault ApiDeleteResponse :=
  match transport with
  | .ok _ => .ok { error := none }
  | .error e => .ok { error := some e }

/-- `uploadFile`: try/catch around the path-addressed POST. -/
def HasuraStorageApi.uploadFile (transport : Except Fault (Option FileMetadata)) :
    Except Fault ApiUploadResponse :=
  match transport with
  | .ok d => .ok { fileMetadata := d, error := none }
  | .error e => .ok { fileMetadata := none, error := some e }

/-- `deleteFile`: try/catch around the path-addressed DELETE. -/
def HasuraStorageApi.deleteFile (transport : Except Fault Unit) :
    Except Fault ApiDeleteResponse :=
  match transport with
  | .ok _ => .ok { error := none }
  | .error e => .ok { error := some e }

/-- `getMetadata`: **no** try/catch — a transport fault propagates to the
caller as an exception; a success returns `res.data` directly. -/
def HasuraStorageApi.getMetadata
    (transport : Except Fault StorageMetadataResponse) :
    Except Fault StorageMetadataResponse :=
  match transport with
  | .ok d => .ok d
  | .error e => .error e

/-! ## Encoding & request facade: `HasuraStorageClient` -/

/-- Constructor arguments of `HasuraStorageClient`: base url and optional
tenant namespace (`appId`, defaulting to `null`). -/
structure ClientConfig where
  url : String
  appId : Option String
deriving DecidableEq, Repr

/-- The calls a facade operation makes on its `HasuraStorageApi` instance,
with the payload it hands over. -/
inductive AdapterCall where
  | upload (params : ApiUploadParams)
  | getPresignedUrl (fileId : String)
  | delete (fileId : String)
  | uploadFile (path : String) (formData : FormDataM)
  | deleteFile (path : String)
  | getMetadata (path : String)
deriving DecidableEq, Repr

/-- `StorageUploadParams`: `{ file, bucketId?, id?, name? }`. -/
structure StorageUploadParams where
  file : FileObj
  bucketId : Option String
  id : Option String
  name : Option String
deriving DecidableEq, Repr

/-- `StorageUploadFile`: `{ path, file }` (the progress callback is purely
observational and not modelled). -/
structure StorageUploadFile where
  path : String
  file : FileObj
deriving DecidableEq, Repr

/-- `StorageUploadString`: `{ path, data, type?, metadata? }`.  `type` is the
encoding selector (`"raw"` or `"data_url"`; `none` models `undefined`), and
`metadata` an optional mapping of header names to values. -/
structure StorageUploadString where
  path : String
  data : String
  type : Option String
  metadata : Option (List (String × String))
deriving DecidableEq, Repr

/-- The re-validation block repeated after every facade upload delegation:
an adapter error is passed through, a missing `fileMetadata` becomes the
`"Invalid file returned"` fault, and otherwise the metadata is returned. -/
def checkUploadResponse (r : ApiUploadResponse) : StorageUploadResponse :=
  match r.error with
  | some e => { fileMetadata := none, error := some e }
  | none =>
    match r.fileMetadata with
    | none =>
      { fileMetadata := none, error := some { message := "Invalid file returned" } }
    | some m => { fileMetadata := some m, error := none }

/-- Facade `upload`: wraps the file in a single-entry form body, delegates to
`api.upload` with the identifying fields spread through, and re-validates the
response.  `api` is the outcome of the adapter call (`.error` models a
rejected promise observed at the `await`). -/
def HasuraStorageClient.upload (params : StorageUploadParams)
    (api : Except Fault ApiUploadResponse) :
    List AdapterCall × Except Fault StorageUploadResponse :=
  ([AdapterCall.upload
      { file := [("file", params.file)], bucketId := params.bucketId,
        id := params.id, name := params.name }],
   match api with
   | .error e => .error e
   | .ok r => .ok (checkUploadResponse r))

/-- Facade `getUrl`: pure and synchronous —
`this.appId ? "/custom/storage/" + appId + "/o/" + fileId
            : url + "/files/" + fileId` (an empty `appId` is falsy). -/
def HasuraStorageClient.getUrl (cfg : ClientConfig) (fileId : String) : String :=
  match cfg.appId with
  | some a =>
    if a = "" then cfg.url ++ "/files/" ++ fileId
    else "/custom/storage/" ++ a ++ "/o/" ++ fileId
  | none => cfg.url ++ "/files/" ++ fileId

/-- Facade `getPresignedUrl`: delegates and converts a missing url into the
`"Invalid file id"` fault. -/
def HasuraStorageClient.getPresignedUrl (fileId : String)
    (api : Except Fault ApiGetPresignedUrlResponse) :
    List AdapterCall × Except Fault StorageGetPresignedUrlResponse :=
  ([AdapterCall.getPresignedUrl fileId],
   match api with
   | .error e => .error e
   | .ok r =>
     match r.error with
     | some e => .ok { presignedUrl := none, error := some e }
     | none =>
       match r.presignedUrl with
       | none =>
         .ok { presignedUrl := none,
               error := some { message := "Invalid file id" } }
       | some u => .ok { presignedUrl := some u, error := none })

/-- Facade `delete`: pure pass-through of the adapter's `{ error }`. -/
def HasuraStorageClient.delete (fileId : String)
    (api : Except Fault ApiDeleteResponse) :
    List AdapterCall × Except Fault StorageDeleteResponse :=
  ([AdapterCall.delete fileId],
   match api with
   | .error e => .error e
   | .ok r =>
     match r.error with
     | some e => .ok { error := some e }
     | none => .ok { error := none })

/-- Facade `uploadFileToStorage`: **throws** when the path does not start
with `/` (the `.error` outcome with no adapter call), otherwise wraps the
file in form data, delegates to `api.uploadFile` and re-validates. -/
def HasuraStorageClient.uploadFileToStorage (params : StorageUploadFile)
    (api : Except Fault ApiUploadResponse) :
    List AdapterCall × Except Fault StorageUploadResponse :=
  if startsWithSlash params.path = false then
    ([], .error { message := "`path` must start with `/`" })
  else
    ([AdapterCall.uploadFile params.path [("file", params.file)]],
     match api with
     | .error e => .error e
     | .ok r => .ok (checkUploadResponse r))

/-- The tail of `uploadStringToStorage` once `fileData` and `contentType`
are computed: build `new File([fileData], "untitled", { type })`, wrap in
form data, delegate, re-validate.  The first component returns the (possibly
mutated) params object observed by the caller afterwards. -/
def stringUploadDelegate (params : StorageUploadString) (fileData : List Nat)
    (contentType : Option String) (api : Except Fault ApiUploadResponse) :
    StorageUploadString × List AdapterCall × Except Fault StorageUploadResponse :=
  let file : FileObj := { name := "untitled", bytes := fileData, type := contentType }
  (params,
   [AdapterCall.uploadFile params.path [("file", file)]],
   match api with
   | .error e => .error e
   | .ok r => .ok (checkUploadResponse r))

/-- Facade `uploadStringToStorage`.  Returns the params object as observed
by the caller after the call (the operation assigns `params.type = "raw"`
when it is unset), the adapter calls made, and the outcome (`.error` models
a thrown error / rejected promise). -/
def HasuraStorageClient.uploadStringToStorage (params : StorageUploadString)
    (api : Except Fault ApiUploadResponse) :
    StorageUploadString × List AdapterCall × Except Fault StorageUploadResponse :=
  if startsWithSlash params.path = false then
    (params, [], .error { message := "`path` must start with `/`" })
  else
    let params := if params.type = none then { params with type := some "raw" } else params
    if params.type = some "raw" then
      let fileData := utf8Bytes params.data
      let contentType :=
        match params.metadata with
        | some m => m.lookup "content-type"
        | none => none
      stringUploadDelegate params fileData contentType api
    else if params.type = some "data_url" then
      match dataUrlMatch params.data with
      | none =>
        (params, [],
         .error { message := "Data must be formatted 'data:[<mediatype>][;base64],<data>" })
      | some middle =>
        let isBase64 :=
          match middle with
          | some m => endsWithBase64 m
          | none => false
        let contentType :=
          match middle with
          | some m => if endsWithBase64 m then some (stripBase64Suffix m) else some m
          | none => none
        let restData := afterFirstComma params.data
        let fileData :=
          if isBase64 then base64Bytes restData.toList
          else percentDecodeBytes restData.toList
        stringUploadDelegate params fileData contentType api
    else
      -- `fileData` was produced by neither branch: `throw new Error(...)`
      (params, [], .error { message := "Unbale to generate file data" })

/-- Facade `deleteFile`: returns (not throws) a fault value on a bad path,
otherwise delegates to `api.deleteFile` and passes the result through. -/
def HasuraStorageClient.deleteFile (path : String)
    (api : Except Fault ApiDeleteResponse) :
    List AdapterCall × Except Fault StorageDeleteResponse :=
  if startsWithSlash path = false then
    ([], .ok { error := some { message := "`path` must start with `/`" } })
  else
    ([AdapterCall.deleteFile path],
     match api with
     | .error e => .error e
     | .ok r =>
       match r.error with
       | some e => .ok { error := some e }
       | none => .ok { error := none })

/-- Facade `getS3Metadata`: returns a fault value on a bad path; otherwise
delegates to `api.getMetadata` (whose transport faults propagate through the
`await` as exceptions) and destructures `{ metadata, error }`. -/
def HasuraStorageClient.getS3Metadata (path : String)
    (api : Except Fault StorageMetadataResponse) :
    List AdapterCall × Except Fault StorageMetadataResponse :=
  if startsWithSlash path = false then
    ([], .ok { metadata := none, error := some { message := "`path` must start with `/`" } })
  else
    ([AdapterCall.getMetadata path],
     match api with
     | .error e => .error e
     | .ok r =>
       match r.error with
       | some e => .ok { metadata := none, error := some e }
       | none => .ok { metadata := r.metadata, error := none })

/-- Facade `setAccessToken`: forwards to the adapter unchanged. -/
def HasuraStorageClient.setAccessToken (s : ApiState)
    (accessToken : Option String) : ApiState :=
  HasuraStorageApi.setAccessToken s accessToken

/-! ## Helper lemmas -/

theorem takeWhile_append_comma (l1 l2 : List Char)
    (h : ∀ c ∈ l1, notComma c = true) :
    (l1 ++ ',' :: l2).takeWhile notComma = l1 := by
  induction l1 with
  | nil => simp [notComma]
  | cons a t ih =>
    have ha := h a (by simp)
    simp [List.takeWhile_cons, ha, ih (fun c hc => h c (by simp [hc]))]

theorem dropWhile_append_comma (l1 l2 : List Char)
    (h : ∀ c ∈ l1, notComma c = true) :
    (l1 ++ ',' :: l2).dropWhile notComma = ',' :: l2 := by
  induction l1 with
  | nil => simp [notComma]
  | cons a t ih =>
    have ha := h a (by simp)
    simp [List.dropWhile_cons, ha, ih (fun c hc => h c (by simp [hc]))]

theorem contains_append_comma (l1 l2 : List Char) :
    (l1 ++ ',' :: l2).contains ',' = true := by
  induction l1 with
  | nil => simp
  | cons a t ih => simp

theorem string_data_ne_nil {s : String} (h : s ≠ "") : s.data.isEmpty = false := by
  cases s with
  | mk l =>
    cases l with
    | nil => exact absurd rfl h
    | cons a t => rfl

/-- The data-URL pattern on a string assembled as
`"data:" ++ hdr ++ "," ++ payload` with a nonempty, comma-free header:
the match succeeds and capture group 1 is `hdr`. -/
theorem dataUrlMatch_concat (hdr payload : String) (h1 : hdr ≠ "")
    (h2 : ∀ c ∈ hdr.toList, notComma c = true) :
    dataUrlMatch ("data:" ++ hdr ++ "," ++ payload) = some (some hdr) := by
  have hd : ("data:" ++ hdr ++ "," ++ payload).toList
      = "data:".toList ++ (hdr.data ++ ',' :: payload.data) := by
    simp [String.toList, String.data_append]
  have hpre : ("data:".toList).isPrefixOf
      ("data:".toList ++ (hdr.data ++ ',' :: payload.data)) = true := by
    simp [List.isPrefixOf_iff_prefix]
  have hdrop : ("data:".toList ++ (hdr.data ++ ',' :: payload.data)).drop 5
      = hdr.data ++ ',' :: payload.data := by
    have h5 : "data:".toList = ['d', 'a', 't', 'a', ':'] := rfl
    rw [h5]
    rfl
  unfold dataUrlMatch
  simp only [hd, hpre, hdrop, contains_append_comma, if_true,
    takeWhile_append_comma hdr.data payload.data h2, string_data_ne_nil h1,
    Bool.false_eq_true, if_false]

/-- `afterFirstComma` on the same assembled string returns the payload. -/
theorem afterFirstComma_concat (hdr payload : String)
    (h2 : ∀ c ∈ hdr.toList, notComma c = true) :
    afterFirstComma ("data:" ++ hdr ++ "," ++ payload) = payload := by
  unfold afterFirstComma
  have hd : ("data:" ++ hdr ++ "," ++ payload).toList
      = ("data:".toList ++ hdr.data) ++ ',' :: payload.data := by
    simp [String.toList, String.data_append]
  rw [hd]
  have hall : ∀ c ∈ "data:".toList ++ hdr.data, notComma c = true := by
    intro c hc
    rcases List.mem_append.mp hc with hc | hc
    · fin_cases hc <;> rfl
    · exact h2 c hc
  rw [contains_append_comma]
  simp only [if_true]
  rw [dropWhile_append_comma _ _ hall]
  rfl

theorem checkUploadResponse_exactly_one (rr : ApiUploadResponse) :
    ((checkUploadResponse rr).fileMetadata = none
      ↔ (checkUploadResponse rr).error ≠ none) := by
  rcases rr with ⟨fm, err⟩
  cases err <;> cases fm <;> simp [checkUploadResponse]

theorem checkUploadResponse_empty :
    checkUploadResponse { fileMetadata := none, error := none }
      = { fileMetadata := none,
          error := some { message := "Invalid file returned" } } := rfl

/-- A facade `upload` outcome that is a normal return is the re-validated
adapter response. -/
theorem upload_snd_ok (p : StorageUploadParams)
    (api : Except Fault ApiUploadResponse) (r : StorageUploadResponse)
    (h : (HasuraStorageClient.upload p api).2 = .ok r) :
    ∃ rr, api = .ok rr ∧ r = checkUploadResponse rr := by
  unfold HasuraStorageClient.upload at h
  cases api with
  | error e => simp at h
  | ok rr => exact ⟨rr, rfl, by simpa using h.symm⟩

/-- A facade `uploadFileToStorage` outcome that is a normal return is the
re-validated adapter response. -/
theorem uploadFileToStorage_snd_ok (pf : StorageUploadFile)
    (api : Except Fault ApiUploadResponse) (r : StorageUploadResponse)
    (h : (HasuraStorageClient.uploadFileToStorage pf api).2 = .ok r) :
    ∃ rr, api = .ok rr ∧ r = checkUploadResponse rr := by
  unfold HasuraStorageClient.uploadFileToStorage at h
  split at h
  · simp at h
  · cases api with
    | error e => simp at h
    | ok rr => exact ⟨rr, rfl, by simpa using h.symm⟩

/-- A facade `uploadStringToStorage` outcome that is a normal return is the
re-validated adapter response. -/
theorem uploadStringToStorage_snd_ok (ps : StorageUploadString)
    (api : Except Fault ApiUploadResponse) (r : StorageUploadResponse)
    (h : (HasuraStorageClient.uploadStringToStorage ps api).2.2 = .ok r) :
    ∃ rr, api = .ok rr ∧ r = checkUploadResponse rr := by
  rcases ps with ⟨path, data, ty, md⟩
  unfold HasuraStorageClient.uploadStringToStorage stringUploadDelegate at h
  by_cases h1 : startsWithSlash path = false
  · simp [h1] at h
  · simp only [h1] at h
    cases ty with
    | none =>
      simp at h
      cases api with
      | error e => simp at h
      | ok rr => exact ⟨rr, rfl, by simpa using h.symm⟩
    | some t =>
      by_cases h2 : t = "raw"
      · simp [h2] at h
        cases api with
        | error e => simp at h
        | ok rr => exact ⟨rr, rfl, by simpa using h.symm⟩
      · by_cases h3 : t = "data_url"
        · simp only [h2, h3] at h
          cases hm : dataUrlMatch data with
          | none => simp [hm, h2, h3] at h
          | some mid =>
            simp [hm, h2, h3] at h
            cases api with
            | error e => simp at h
            | ok rr => exact ⟨rr, rfl, by simpa using h.symm⟩
        · simp [h2, h3] at h

/-- The params object observed by the caller after `uploadStringToStorage`:
unchanged unless the path check passed and `type` was unset, in which case
`type` has been overwritten with `"raw"`. -/
theorem uploadStringToStorage_fst (ps : StorageUploadString)
    (api : Except Fault ApiUploadResponse) :
    (HasuraStorageClient.uploadStringToStorage ps api).1
      = if startsWithSlash ps.path = false then ps
        else if ps.type = none then { ps with type := some "raw" } else ps := by
  rcases ps with ⟨path, data, ty, md⟩
  unfold HasuraStorageClient.uploadStringToStorage stringUploadDelegate
  by_cases h1 : startsWithSlash path = false
  · simp [h1]
  · simp only [h1, if_false]
    cases ty with
    | none => simp
    | some t =>
      by_cases h2 : t = "raw"
      · simp [h2]
      · by_cases h3 : t = "data_url"
        · simp only [h2, h3]
          cases hm : dataUrlMatch data with
          | none => simp [hm, h2, h3]
          | some mid => simp [hm, h2, h3]
        · simp [h2, h3]

/-- C3: for a transport-level exception, the adapter operations `upload`,
`getPresignedUrl`, `delete`, `uploadFile` and `deleteFile` catch it and
return a `{ value: null, error }` pair — they never raise, for any transport
outcome — while `getMetadata` does not catch it: the exception propagates to
its caller. -/
theorem c3_adapter_fault_handling :
    ∀ e : Fault,
      HasuraStorageApi.upload (.error e)
        = .ok { fileMetadata := none, error := some e } ∧
      HasuraStorageApi.getPresignedUrl (.error e)
        = .ok { presignedUrl := none, error := some e } ∧
      HasuraStorageApi.delete (.error e) = .ok { error := some e } ∧
      HasuraStorageApi.uploadFile (.error e)
        = .ok { fileMetadata := none, error := some e } ∧
      HasuraStorageApi.deleteFile (.error e) = .ok { error := some e } ∧
      (∀ t : Except Fault (Option FileMetadata),
        (HasuraStorageApi.upload t).isOk = true) ∧
      (∀ t : Except Fault (Option PresignedUrl),
        (HasuraStorageApi.getPresignedUrl t).isOk = true) ∧
      (∀ t : Except Fault Unit, (HasuraStorageApi.delete t).isOk = true) ∧
      (∀ t : Except Fault (Option FileMetadata),
        (HasuraStorageApi.uploadFile t).isOk = true) ∧
      (∀ t : Except Fault Unit, (HasuraStorageApi.deleteFile t).isOk = true) ∧
      HasuraStorageApi.getMetadata (.error e) = .error e := by
  intro e
  refine ⟨rfl, rfl, rfl, rfl, rfl, ?_, ?_, ?_, ?_, ?_, rfl⟩ <;>
    intro t <;> cases t <;> rfl

/-- C4 counterexample: the adapter's `upload`, on a successful HTTP response
whose body is empty, returns a result whose value **and** error are both
null — the "exactly one non-null" contract does not hold at the adapter
layer. -/
theorem c4_counterexample_adapter_both_null :
    HasuraStorageApi.upload (.ok none)
      = .ok { fileMetadata := none, error := none } := rfl

/-- C4 (amended): the facade's value-carrying operations (`upload`,
`getPresignedUrl`, `uploadFileToStorage`, `uploadStringToStorage`) return,
for every transport outcome, a result with exactly one of value/error
non-null; the adapter's `upload` satisfies the contract only when the
transport faults or the successful body is non-empty — an empty successful
body yields a both-null adapter result (see the counterexample). -/
theorem c4_exactly_one :
    ∀ (p : StorageUploadParams) (fid : String) (pf : StorageUploadFile)
      (ps : StorageUploadString) (api : Except Fault ApiUploadResponse)
      (apiP : Except Fault ApiGetPresignedUrlResponse)
      (r : StorageUploadResponse) (q : StorageGetPresignedUrlResponse),
      ((HasuraStorageClient.upload p api).2 = .ok r →
        (r.fileMetadata = none ↔ r.error ≠ none)) ∧
      ((HasuraStorageClient.getPresignedUrl fid apiP).2 = .ok q →
        (q.presignedUrl = none ↔ q.error ≠ none)) ∧
      ((HasuraStorageClient.uploadFileToStorage pf api).2 = .ok r →
        (r.fileMetadata = none ↔ r.error ≠ none)) ∧
      ((HasuraStorageClient.uploadStringToStorage ps api).2.2 = .ok r →
        (r.fileMetadata = none ↔ r.error ≠ none)) ∧
      (∀ e : Fault, HasuraStorageApi.upload (.error e)
        = .ok { fileMetadata := none, error := some e }) ∧
      (∀ m : FileMetadata, HasuraStorageApi.upload (.ok (some m))
        = .ok { fileMetadata := some m, error := none }) := by
  intro p fid pf ps api apiP r q
  refine ⟨?_, ?_, ?_, ?_, fun e => rfl, fun m => rfl⟩
  · intro h
    obtain ⟨rr, -, hr⟩ := upload_snd_ok p api r h
    rw [hr]; exact checkUploadResponse_exactly_one rr
  · intro h
    unfold HasuraStorageClient.getPresignedUrl at h
    cases apiP with
    | error e => simp at h
    | ok rr =>
      rcases rr with ⟨u, err⟩
      cases err <;> cases u <;> simp at h <;> subst h <;> simp
  · intro h
    obtain ⟨rr, -, hr⟩ := uploadFileToStorage_snd_ok pf api r h
    rw [hr]; exact checkUploadResponse_exactly_one rr
  · intro h
    obtain ⟨rr, -, hr⟩ := uploadStringToStorage_snd_ok ps api r h
    rw [hr]; exact checkUploadResponse_exactly_one rr

/-- C4 witness. -/
theorem c4_witness :
    (({ fileMetadata := none,
        error := some { message := "Invalid file returned" } } :
        StorageUploadResponse).fileMetadata = none
      ↔ ({ fileMetadata := none,
           error := some { message := "Invalid file returned" } } :
           StorageUploadResponse).error ≠ none) :=
  (c4_exactly_one
    { file := { name := "f", bytes := [], type := none },
      bucketId := none, id := none, name := none }
    "fid"
    { path := "/p", file := { name := "f", bytes := [], type := none } }
    { path := "/p", data := "d", type := none, metadata := none }
    (.ok { fileMetadata := none, error := none })
    (.ok { presignedUrl := none, error := none })
    { fileMetadata := none, error := some { message := "Invalid file returned" } }
    { presignedUrl := none, error := none }).1 rfl

/-- C2: whenever the adapter call of a facade upload operation (`upload`,
`uploadFileToStorage`, `uploadStringToStorage`) returns with both error and
file metadata null, the facade returns the `"Invalid file returned"` fault;
and no facade upload operation ever returns a result whose value and error
are both null. -/
theorem c2_invalid_file_returned :
    ∀ (p : StorageUploadParams) (pf : StorageUploadFile)
      (ps : StorageUploadString) (api : Except Fault ApiUploadResponse)
      (r : StorageUploadResponse),
      ((HasuraStorageClient.upload p
          (.ok { fileMetadata := none, error := none })).2
        = .ok { fileMetadata := none,
                error := some { message := "Invalid file returned" } }) ∧
      ((HasuraStorageClient.uploadFileToStorage pf
          (.ok { fileMetadata := none, error := none })).2 = .ok r →
        r = { fileMetadata := none,
              error := some { message := "Invalid file returned" } }) ∧
      ((HasuraStorageClient.uploadStringToStorage ps
          (.ok { fileMetadata := none, error := none })).2.2 = .ok r →
        r = { fileMetadata := none,
              error := some { message := "Invalid file returned" } }) ∧
      ((HasuraStorageClient.upload p api).2 = .ok r →
        ¬(r.fileMetadata = none ∧ r.error = none)) ∧
      ((HasuraStorageClient.uploadFileToStorage pf api).2 = .ok r →
        ¬(r.fileMetadata = none ∧ r.error = none)) ∧
      ((HasuraStorageClient.uploadStringToStorage ps api).2.2 = .ok r →
        ¬(r.fileMetadata = none ∧ r.error = none)) := by
  intro p pf ps api r
  refine ⟨rfl, ?_, ?_, ?_, ?_, ?_⟩
  · intro h
    obtain ⟨rr, hrr, hr⟩ := uploadFileToStorage_snd_ok pf _ r h
    obtain rfl : rr = { fileMetadata := none, error := none } := by
      injection hrr.symm
    rw [hr]; rfl
  · intro h
    obtain ⟨rr, hrr, hr⟩ := uploadStringToStorage_snd_ok ps _ r h
    obtain rfl : rr = { fileMetadata := none, error := none } := by
      injection hrr.symm
    rw [hr]; rfl
  · intro h
    obtain ⟨rr, -, hr⟩ := upload_snd_ok p api r h
    rw [hr]
    rintro ⟨hm, he⟩
    exact ((checkUploadResponse_exactly_one rr).mp hm) he
  · intro h
    obtain ⟨rr, -, hr⟩ := uploadFileToStorage_snd_ok pf api r h
    rw [hr]
    rintro ⟨hm, he⟩
    exact ((checkUploadResponse_exactly_one rr).mp hm) he
  · intro h
    obtain ⟨rr, -, hr⟩ := uploadStringToStorage_snd_ok ps api r h
    rw [hr]
    rintro ⟨hm, he⟩
    exact ((checkUploadResponse_exactly_one rr).mp hm) he

/-- C2 witness. -/
theorem c2_witness :
    ¬(({ fileMetadata := none,
         error := some { message := "Invalid file returned" } } :
         StorageUploadResponse).fileMetadata = none
      ∧ ({ fileMetadata := none,
           error := some { message := "Invalid file returned" } } :
           StorageUploadResponse).error = none) :=
  (c2_invalid_file_returned
    { file := { name := "g", bytes := [1], type := none },
      bucketId := none, id := none, name := none }
    { path := "/q", file := { name := "g", bytes := [1], type := none } }
    { path := "/q", data := "e", type := none, metadata := none }
    (.ok { fileMetadata := none, error := none })
    { fileMetadata := none,
      error := some { message := "Invalid file returned" } }).2.2.2.1 rfl

/-- C1 counterexample: on a path without a leading slash,
`uploadFileToStorage` does **not** return a validation fault value — it
raises (`throw new Error(...)`, i.e. the `.error` outcome), unlike its
siblings `deleteFile` and `getS3Metadata` which return a fault value. -/
theorem c1_counterexample_uploadFileToStorage_raises :
    HasuraStorageClient.uploadFileToStorage
      { path := "x", file := { name := "f", bytes := [], type := none } }
      (.ok { fileMetadata := none, error := none })
      = ([], .error { message := "`path` must start with `/`" }) := by
  rfl

/-- C1 (amended): for a path not starting with `/`, `deleteFile` and
`getS3Metadata` return a validation fault value with zero adapter calls,
while `uploadFileToStorage` raises the validation fault (also with zero
adapter calls); for a path starting with `/`, each of the three delegates to
the corresponding adapter operation. -/
theorem c1_path_validation :
    ∀ (pf : StorageUploadFile) (api : Except Fault ApiUploadResponse)
      (d : Except Fault ApiDeleteResponse)
      (m : Except Fault StorageMetadataResponse),
      (startsWithSlash pf.path = false →
        HasuraStorageClient.uploadFileToStorage pf api
          = ([], .error { message := "`path` must start with `/`" }) ∧
        HasuraStorageClient.deleteFile pf.path d
          = ([], .ok { error := some { message := "`path` must start with `/`" } }) ∧
        HasuraStorageClient.getS3Metadata pf.path m
          = ([], .ok { metadata := none,
                       error := some { message := "`path` must start with `/`" } })) ∧
      (startsWithSlash pf.path = true →
        (HasuraStorageClient.uploadFileToStorage pf api).1
          = [AdapterCall.uploadFile pf.path [("file", pf.file)]] ∧
        (HasuraStorageClient.deleteFile pf.path d).1
          = [AdapterCall.deleteFile pf.path] ∧
        (HasuraStorageClient.getS3Metadata pf.path m).1
          = [AdapterCall.getMetadata pf.path]) := by
  intro pf api d m
  constructor
  · intro h
    refine ⟨?_, ?_, ?_⟩ <;>
      simp [HasuraStorageClient.uploadFileToStorage,
        HasuraStorageClient.deleteFile, HasuraStorageClient.getS3Metadata, h]
  · intro h
    refine ⟨?_, ?_, ?_⟩ <;>
      simp [HasuraStorageClient.uploadFileToStorage,
        HasuraStorageClient.deleteFile, HasuraStorageClient.getS3Metadata, h]

/-- C1 witness. -/
theorem c1_witness :
    HasuraStorageClient.deleteFile "x" (.ok { error := none })
      = ([], .ok { error := some { message := "`path` must start with `/`" } }) ∧
    (HasuraStorageClient.deleteFile "/a" (.ok { error := none })).1
      = [AdapterCall.deleteFile "/a"] :=
  ⟨((c1_path_validation
      { path := "x", file := { name := "f", bytes := [], type := none } }
      (.ok { fileMetadata := none, error := none })
      (.ok { error := none })
      (.ok { metadata := none, error := none })).1 (by decide)).2.1,
   ((c1_path_validation
      { path := "/a", file := { name := "f", bytes := [], type := none } }
      (.ok { fileMetadata := none, error := none })
      (.ok { error := none })
      (.ok { metadata := none, error := none })).2 (by decide)).2.1⟩

/-- C6: a `data_url` upload whose payload does not match
`^data:([^,]+)?,` fails with the format fault and performs no adapter call;
in particular `"not-a-data-url"` does. -/
theorem c6_data_url_format_fault :
    (∀ (ps : StorageUploadString) (api : Except Fault ApiUploadResponse),
      startsWithSlash ps.path = true → ps.type = some "data_url" →
      dataUrlMatch ps.data = none →
      HasuraStorageClient.uploadStringToStorage ps api
        = (ps, [],
           .error { message :=
             "Data must be formatted 'data:[<mediatype>][;base64],<data>" })) ∧
    dataUrlMatch "not-a-data-url" = none ∧
    HasuraStorageClient.uploadStringToStorage
      { path := "/f", data := "not-a-data-url", type := some "data_url",
        metadata := none }
      (.ok { fileMetadata := none, error := none })
      = ({ path := "/f", data := "not-a-data-url", type := some "data_url",
           metadata := none }, [],
         .error { message :=
           "Data must be formatted 'data:[<mediatype>][;base64],<data>" }) := by
  refine ⟨?_, by decide, by rfl⟩
  intro ps api h1 h2 h3
  have hne : ("data_url" : String) ≠ "raw" := by decide
  unfold HasuraStorageClient.uploadStringToStorage
  rw [h1]
  simp [h2, h3, hne]

/-- C6 witness. -/
theorem c6_witness :
    HasuraStorageClient.uploadStringToStorage
      { path := "/g", data := "nope", type := some "data_url", metadata := none }
      (.error { message := "never reached" })
      = ({ path := "/g", data := "nope", type := some "data_url",
           metadata := none }, [],
         .error { message :=
           "Data must be formatted 'data:[<mediatype>][;base64],<data>" }) :=
  c6_data_url_format_fault.1
    { path := "/g", data := "nope", type := some "data_url", metadata := none }
    (.error { message := "never reached" }) (by decide) rfl (by decide)

/-- C9: `getUrl` is a pure, total function: with no tenant namespace it
returns `url ++ "/files/" ++ fileId`; with a (nonempty) tenant namespace `a`
it returns `"/custom/storage/" ++ a ++ "/o/" ++ fileId`; in particular with
namespace `"t1"` and fileId `"abc"` it returns `"/custom/storage/t1/o/abc"`. -/
theorem c9_getUrl :
    (∀ url fileId : String,
      HasuraStorageClient.getUrl { url := url, appId := none } fileId
        = url ++ "/files/" ++ fileId) ∧
    (∀ url fileId a : String, a ≠ "" →
      HasuraStorageClient.getUrl { url := url, appId := some a } fileId
        = "/custom/storage/" ++ a ++ "/o/" ++ fileId) ∧
    HasuraStorageClient.getUrl { url := "http://base", appId := some "t1" } "abc"
      = "/custom/storage/t1/o/abc" := by
  refine ⟨fun url fileId => rfl, fun url fileId a ha => ?_, by decide⟩
  simp [HasuraStorageClient.getUrl, ha]

/-- C9 witness. -/
theorem c9_witness :
    HasuraStorageClient.getUrl { url := "b", appId := some "t1" } "abc"
      = "/custom/storage/" ++ "t1" ++ "/o/" ++ "abc" :=
  c9_getUrl.2.1 "b" "abc" "t1" (by decide)

/-- C10 counterexample: with `type` unset and a path that fails validation,
`uploadStringToStorage` raises before reaching the defaulting assignment, so
the caller's params object still has `type` unset after the call — the
defaulting write is not unconditional. -/
theorem c10_counterexample_no_write_on_bad_path :
    (HasuraStorageClient.uploadStringToStorage
      { path := "x", data := "d", type := none, metadata := none }
      (.ok { fileMetadata := none, error := none })).1.type = none := by
  rfl

/-- C10 (amended): when the path validation passes and `type` is unset, the
operation writes `"raw"` into the caller's params object; when `type` is set,
or the path validation fails (raising before the assignment), the params
object is returned unchanged; no field other than `type` is ever modified. -/
theorem c10_params_mutation :
    ∀ (ps : StorageUploadString) (api : Except Fault ApiUploadResponse),
      (startsWithSlash ps.path = true → ps.type = none →
        (HasuraStorageClient.uploadStringToStorage ps api).1
          = { ps with type := some "raw" }) ∧
      (ps.type ≠ none →
        (HasuraStorageClient.uploadStringToStorage ps api).1 = ps) ∧
      (startsWithSlash ps.path = false →
        (HasuraStorageClient.uploadStringToStorage ps api).1 = ps) ∧
      ((HasuraStorageClient.uploadStringToStorage ps api).1.path = ps.path ∧
       (HasuraStorageClient.uploadStringToStorage ps api).1.data = ps.data ∧
       (HasuraStorageClient.uploadStringToStorage ps api).1.metadata
         = ps.metadata) := by
  intro ps api
  have hfst := uploadStringToStorage_fst ps api
  by_cases h1 : startsWithSlash ps.path = false
  · rw [if_pos h1] at hfst
    refine ⟨fun ht _ => ?_, fun _ => hfst, fun _ => hfst, ?_⟩
    · rw [ht] at h1; simp at h1
    · rw [hfst]; exact ⟨rfl, rfl, rfl⟩
  · rw [if_neg h1] at hfst
    by_cases h2 : ps.type = none
    · rw [if_pos h2] at hfst
      refine ⟨fun _ _ => hfst, fun ht => absurd h2 ht, fun ht => absurd ht h1, ?_⟩
      rw [hfst]; exact ⟨rfl, rfl, rfl⟩
    · rw [if_neg h2] at hfst
      refine ⟨fun _ ht => absurd ht h2, fun _ => hfst, fun ht => absurd ht h1, ?_⟩
      rw [hfst]; exact ⟨rfl, rfl, rfl⟩

/-- C10 witness. -/
theorem c10_witness :
    (HasuraStorageClient.uploadStringToStorage
      { path := "/m", data := "hi", type := none, metadata := none }
      (.ok { fileMetadata := none, error := none })).1
      = { path := "/m", data := "hi", type := some "raw", metadata := none } :=
  (c10_params_mutation
    { path := "/m", data := "hi", type := none, metadata := none }
    (.ok { fileMetadata := none, error := none })).1 (by decide) rfl

theorem mem_optHeader {nm a x : String} {v : Option String} :
    (a, x) ∈ optHeader nm v ↔ a = nm ∧ v = some x ∧ x ≠ "" := by
  cases v with
  | none => simp [optHeader]
  | some y =>
    by_cases hy : y = ""
    · subst hy
      simp [optHeader]
      rintro - rfl
      simp
    · simp only [optHeader, hy, if_false]
      constructor
      · rintro h
        simp at h
        exact ⟨h.1, by rw [h.2], by rw [h.2]; exact hy⟩
      · rintro ⟨rfl, hv, -⟩
        injection hv with hv
        simp [hv]

theorem auth_not_in_uploadHeaders (p : ApiUploadParams) (v : String) :
    ("Authorization", v) ∉ HasuraStorageApi.generateUploadHeaders p := by
  intro hmem
  unfold HasuraStorageApi.generateUploadHeaders at hmem
  rcases List.mem_append.mp hmem with h | h
  · rcases List.mem_append.mp h with h | h <;>
      exact absurd (mem_optHeader.mp h).1 (by decide)
  · exact absurd (mem_optHeader.mp h).1 (by decide)

theorem authHeaderList_of_token {s : ApiState} {t : String}
    (h : s.accessToken = some t) (ht : t ≠ "") :
    authHeaderList s = [("Authorization", "Bearer " ++ t)] := by
  simp [authHeaderList, HasuraStorageApi.generateAuthHeaders, h, ht]

theorem authHeaderList_empty {s : ApiState}
    (h : s.accessToken = none ∨ s.accessToken = some "") :
    authHeaderList s = [] := by
  rcases h with h | h <;>
    simp [authHeaderList, HasuraStorageApi.generateAuthHeaders, h]

/-- C7 counterexample: after `setAccessToken("")` a bearer token *is*
currently set (to the empty string), yet `generateAuthHeaders` yields
nothing and the request headers contain no `Authorization` header at all —
contradicting "if a bearer token is currently set, the request headers
contain `Authorization: Bearer <token>`". -/
theorem c7_counterexample_empty_token :
    (HasuraStorageApi.setAccessToken { accessToken := none } (some "")).accessToken
      = some "" ∧
    HasuraStorageApi.generateAuthHeaders
      (HasuraStorageApi.setAccessToken { accessToken := none } (some "")) = none ∧
    HasuraStorageApi.getPresignedUrlRequestHeaders
      (HasuraStorageApi.setAccessToken { accessToken := none } (some "")) = [] :=
  ⟨rfl, rfl, rfl⟩

/-- C7 (amended): for every request issued by the adapter, if a **nonempty**
bearer token is set the headers contain `Authorization: Bearer <token>`; if
no token is set — `undefined`, including after `setAccessToken(undefined)`,
or the falsy empty string — the `Authorization` header is entirely absent,
so an empty or malformed `Authorization` header is never sent. -/
theorem c7_auth_header :
    ∀ (s : ApiState) (p : ApiUploadParams) (t : String),
      (s.accessToken = some t → t ≠ "" →
        (("Authorization", "Bearer " ++ t)
            ∈ HasuraStorageApi.uploadRequestHeaders p s ∧
         ("Authorization", "Bearer " ++ t)
            ∈ HasuraStorageApi.getPresignedUrlRequestHeaders s ∧
         ("Authorization", "Bearer " ++ t)
            ∈ HasuraStorageApi.deleteRequestHeaders s ∧
         ("Authorization", "Bearer " ++ t)
            ∈ HasuraStorageApi.uploadFileRequestHeaders s ∧
         ("Authorization", "Bearer " ++ t)
            ∈ HasuraStorageApi.deleteFileRequestHeaders s ∧
         ("Authorization", "Bearer " ++ t)
            ∈ HasuraStorageApi.getMetadataRequestHeaders s)) ∧
      ((s.accessToken = none ∨ s.accessToken = some "") → ∀ v : String,
        (("Authorization", v) ∉ HasuraStorageApi.uploadRequestHeaders p s ∧
         ("Authorization", v) ∉ HasuraStorageApi.getPresignedUrlRequestHeaders s ∧
         ("Authorization", v) ∉ HasuraStorageApi.deleteRequestHeaders s ∧
         ("Authorization", v) ∉ HasuraStorageApi.uploadFileRequestHeaders s ∧
         ("Authorization", v) ∉ HasuraStorageApi.deleteFileRequestHeaders s ∧
         ("Authorization", v) ∉ HasuraStorageApi.getMetadataRequestHeaders s)) := by
  intro s p t
  constructor
  · intro h ht
    have ha := authHeaderList_of_token h ht
    unfold HasuraStorageApi.uploadRequestHeaders
      HasuraStorageApi.getPresignedUrlRequestHeaders
      HasuraStorageApi.deleteRequestHeaders
      HasuraStorageApi.uploadFileRequestHeaders
      HasuraStorageApi.deleteFileRequestHeaders
      HasuraStorageApi.getMetadataRequestHeaders
    rw [ha]
    refine ⟨List.mem_append.mpr (Or.inr ?_), by simp, by simp, by simp,
      by simp, by simp⟩
    simp
  · intro h v
    have ha := authHeaderList_empty h
    unfold HasuraStorageApi.uploadRequestHeaders
      HasuraStorageApi.getPresignedUrlRequestHeaders
      HasuraStorageApi.deleteRequestHeaders
      HasuraStorageApi.uploadFileRequestHeaders
      HasuraStorageApi.deleteFileRequestHeaders
      HasuraStorageApi.getMetadataRequestHeaders
    rw [ha]
    refine ⟨?_, by simp, by simp, by simp, by simp, by simp⟩
    simpa using auth_not_in_uploadHeaders p v

/-- C7 witness. -/
theorem c7_witness :
    ("Authorization", "Bearer " ++ "tok")
      ∈ HasuraStorageApi.getPresignedUrlRequestHeaders
        { accessToken := some "tok" } :=
  ((c7_auth_header { accessToken := some "tok" }
      { file := [], bucketId := none, id := none, name := none }
      "tok").1 rfl (by decide)).2.1

/-- C8 counterexample: a field set to the empty string is *not*
distinguishable from an unset field — `bucketId = ""` is present in the
parameters yet `generateUploadHeaders` attaches no `x-nhost-bucket-id`
header, producing exactly the headers of the unset case. -/
theorem c8_counterexample_empty_string_field :
    HasuraStorageApi.generateUploadHeaders
      { file := [], bucketId := some "", id := none, name := none } = [] ∧
    HasuraStorageApi.generateUploadHeaders
      { file := [], bucketId := some "", id := none, name := none }
      = HasuraStorageApi.generateUploadHeaders
        { file := [], bucketId := none, id := none, name := none } :=
  ⟨rfl, rfl⟩

/-- C8 (amended): each of the `x-nhost-bucket-id` / `x-nhost-file-id` /
`x-nhost-file-name` headers is attached exactly when the corresponding
field (`bucketId`, `id`, `name`) is present **and nonempty**; the JS
truthiness test treats an empty-string field like an unset one, so the two
are not distinguishable in the headers. -/
theorem c8_upload_headers_iff :
    ∀ (p : ApiUploadParams) (v : String),
      ((("x-nhost-bucket-id", v) ∈ HasuraStorageApi.generateUploadHeaders p)
        ↔ (p.bucketId = some v ∧ v ≠ "")) ∧
      ((("x-nhost-file-id", v) ∈ HasuraStorageApi.generateUploadHeaders p)
        ↔ (p.id = some v ∧ v ≠ "")) ∧
      ((("x-nhost-file-name", v) ∈ HasuraStorageApi.generateUploadHeaders p)
        ↔ (p.name = some v ∧ v ≠ "")) := by
  intro p v
  unfold HasuraStorageApi.generateUploadHeaders
  have h1 : ("x-nhost-bucket-id" : String) ≠ "x-nhost-file-id" := by decide
  have h2 : ("x-nhost-bucket-id" : String) ≠ "x-nhost-file-name" := by decide
  have h3 : ("x-nhost-file-id" : String) ≠ "x-nhost-file-name" := by decide
  refine ⟨?_, ?_, ?_⟩ <;>
    simp [List.mem_append, mem_optHeader, h1, h2, h3, h1.symm, h2.symm, h3.symm]

/-- C8 witness. -/
theorem c8_witness :
    ("x-nhost-bucket-id", "b1") ∈ HasuraStorageApi.generateUploadHeaders
      { file := [], bucketId := some "b1", id := some "", name := none } :=
  ((c8_upload_headers_iff
    { file := [], bucketId := some "b1", id := some "", name := none }
    "b1").1).mpr ⟨rfl, by decide⟩

/-- C5: for a well-formed data URL — `"data:" ++ hdr ++ "," ++ payload`
with a nonempty, comma-free header segment — `uploadStringToStorage`
delegates an upload of a file whose bytes are the base64-decoded payload
when the header ends with `";base64"` (with content-type the header minus
that suffix) and the percent-decoded payload otherwise (with content-type
the header verbatim); in particular
`"data:text/plain;base64,SGVsbG8="` uploads the bytes of `"Hello"` with
content-type `"text/plain"`, and `"data:text/plain,Hello%20World"` uploads
the bytes of `"Hello World"` with content-type `"text/plain"`. -/
theorem c5_data_url_decoding :
    (∀ (ps : StorageUploadString) (api : Except Fault ApiUploadResponse)
       (hdr payload : String),
      startsWithSlash ps.path = true →
      ps.type = some "data_url" →
      ps.data = "data:" ++ hdr ++ "," ++ payload →
      hdr ≠ "" →
      (∀ c ∈ hdr.toList, notComma c = true) →
      (HasuraStorageClient.uploadStringToStorage ps api).2.1
        = [AdapterCall.uploadFile ps.path
            [("file",
              { name := "untitled",
                bytes :=
                  if endsWithBase64 hdr = true then base64Bytes payload.toList
                  else percentDecodeBytes payload.toList,
                type :=
                  if endsWithBase64 hdr = true then some (stripBase64Suffix hdr)
                  else some hdr })]]) ∧
    (HasuraStorageClient.uploadStringToStorage
      { path := "/f", data := "data:text/plain;base64,SGVsbG8=",
        type := some "data_url", metadata := none }
      (.ok { fileMetadata := none, error := none })).2.1
      = [AdapterCall.uploadFile "/f"
          [("file", { name := "untitled", bytes := utf8Bytes "Hello",
                      type := some "text/plain" })]] ∧
    (HasuraStorageClient.uploadStringToStorage
      { path := "/f", data := "data:text/plain,Hello%20World",
        type := some "data_url", metadata := none }
      (.ok { fileMetadata := none, error := none })).2.1
      = [AdapterCall.uploadFile "/f"
          [("file", { name := "untitled", bytes := utf8Bytes "Hello World",
                      type := some "text/plain" })]] := by
  refine ⟨?_, by decide, by decide⟩
  intro ps api hdr payload h1 h2 hd hne hnc
  have hm : dataUrlMatch ps.data = some (some hdr) := by
    rw [hd]; exact dataUrlMatch_concat hdr payload hne hnc
  have hr : afterFirstComma ps.data = payload := by
    rw [hd]; exact afterFirstComma_concat hdr payload hnc
  have hne2 : ("data_url" : String) ≠ "raw" := by decide
  unfold HasuraStorageClient.uploadStringToStorage stringUploadDelegate
  simp [h1, h2, hm, hr, hne2]

/-- C5 witness. -/
theorem c5_witness :
    (HasuraStorageClient.uploadStringToStorage
      { path := "/w", data := "data:x,abc", type := some "data_url",
        metadata := none }
      (.ok { fileMetadata := none, error := none })).2.1
      = [AdapterCall.uploadFile "/w"
          [("file",
            { name := "untitled",
              bytes :=
                if endsWithBase64 "x" = true then base64Bytes "abc".toList
                else percentDecodeBytes "abc".toList,
              type :=
                if endsWithBase64 "x" = true then some (stripBase64Suffix "x")
                else some "x" })]] :=
  c5_data_url_decoding.1
    { path := "/w", data := "data:x,abc", type := some "data_url",
      metadata := none }
    (.ok { fileMetadata := none, error := none })
    "x" "abc" (by decide) rfl (by decide) (by decide) (by decide)
